import Mathlib

/-
Verification of the QMuPDF document adapter (src/document.cpp) against its
specification. The MuPDF engine is external: its accessors are embedded at
their interface semantics (null-tolerant pointer arguments, RESOLVE on
typed accessors), and an open engine document is summarised by the data the
adapter reads from it (trailer dictionary, page count, password set, format
metadata string, outline list).
-/

namespace QMuPDF

/-- Page-display modes, mirroring the Document::PageMode enumeration. -/
inductive PageMode where
  | UseNone
  | UseOutlines
  | UseThumbs
  | FullScreen
  | UseOC
  | UseAttachments
deriving DecidableEq, Repr

/-- PDF objects as seen through the engine accessors document.cpp uses:
name objects, string objects (represented here by the UTF-8 text that
pdf_new_utf8_from_pdf_string_obj would decode them to), dictionaries,
indirect references (carrying their fully loaded target), and everything
else (numbers, arrays, booleans, null) collapsed to `other`. -/
inductive PdfObj where
  | name (s : String)
  | string (decoded : String)
  | dict (entries : List (String × PdfObj))
  | indirect (target : PdfObj)
  | other

/-- Resolution of indirect-reference chains: the engine's RESOLVE step used
by its typed accessors (pdf_resolve_indirect_chain semantics). -/
def PdfObj.resolve : PdfObj → PdfObj
  | .indirect t => t.resolve
  | o => o

/-- First value stored under a key in a dictionary entry list. -/
def dictFind : List (String × PdfObj) → String → Option PdfObj
  | [], _ => none
  | (k, v) :: rest, key => if k = key then some v else dictFind rest key

/-- Engine pdf_dict_gets: resolves the dictionary argument, returns the value
stored under the key, and NULL (none) when the argument is NULL, not a
dictionary, or lacks the key. -/
def pdf_dict_gets (obj : Option PdfObj) (key : String) : Option PdfObj :=
  match obj with
  | none => none
  | some o =>
    match o.resolve with
    | .dict es => dictFind es key
    | _ => none

/-- Engine pdf_is_name: resolves, then tests for a name object; false on NULL. -/
def pdf_is_name (obj : Option PdfObj) : Bool :=
  match obj with
  | none => false
  | some o => match o.resolve with | .name _ => true | _ => false

/-- Engine pdf_to_name: resolves, returns the name text, empty string otherwise. -/
def pdf_to_name (obj : Option PdfObj) : String :=
  match obj with
  | none => ""
  | some o => match o.resolve with | .name s => s | _ => ""

/-- Engine pdf_is_string: resolves, then tests for a string object; false on NULL. -/
def pdf_is_string (obj : Option PdfObj) : Bool :=
  match obj with
  | none => false
  | some o => match o.resolve with | .string _ => true | _ => false

/-- Engine pdf_resolve_indirect on a (possibly NULL) object pointer. -/
def pdf_resolve_indirect (obj : Option PdfObj) : Option PdfObj :=
  obj.map PdfObj.resolve

/-- Engine pdf_new_utf8_from_pdf_string_obj: the UTF-8 decoding of a string
object; none models a NULL return for a non-string argument. -/
def pdf_new_utf8_from_pdf_string_obj (obj : Option PdfObj) : Option String :=
  match obj with
  | none => none
  | some o => match o.resolve with | .string s => some s | _ => none

/-- Engine pdf_dict_len: resolves, length of a dictionary, 0 otherwise. -/
def pdf_dict_len (obj : Option PdfObj) : Nat :=
  match obj with
  | none => 0
  | some o => match o.resolve with | .dict es => es.length | _ => 0

/-- Engine pdf_dict_get_key: the i-th key of a dictionary, as a name object. -/
def pdf_dict_get_key (obj : Option PdfObj) (i : Nat) : Option PdfObj :=
  match obj with
  | none => none
  | some o =>
    match o.resolve with
    | .dict es => (es[i]?).map (fun kv => PdfObj.name kv.1)
    | _ => none

/-- Engine fz_outline linked structure: each node has an optional title, an
optional link URI, a first-child pointer (down) and a next-sibling pointer
(next); nil stands for the NULL pointer. -/
inductive FzOutline where
  | nil
  | node (title : Option String) (uri : Option String) (down : FzOutline) (next : FzOutline)
deriving DecidableEq, Repr

/-- Owned outline tree built by the adapter: a QMuPDF::Outline node with its
optional title, optional link URI and ordered owned children. -/
inductive Outline where
  | node (title : Option String) (link : Option String) (children : List Outline)

/-- Summary of an open engine document: the data the adapter reads through
the engine interface. The password list stands for fz_authenticate_password
(it accepts exactly the listed passwords); formatString is the FZ_META_FORMAT
metadata, none when fz_lookup_metadata reports the key missing. -/
structure EngineDoc where
  trailer : PdfObj
  numPages : Nat
  needsPassword : Bool
  passwords : List String
  formatString : Option String
  outline : FzOutline

/-- Observable state of Document::Data: the document handle (none = NULL),
whether the stream handle is non-null, and the pageCount, cached info
reference, pageMode and locked fields. -/
structure DocState where
  mdoc : Option EngineDoc
  stream : Bool
  pageCount : Nat
  info : Option PdfObj
  pageMode : PageMode
  locked : Bool

/-- State established by the Document::Data constructor. -/
def DocState.init : DocState :=
  { mdoc := none, stream := false, pageCount := 0, info := none
    pageMode := PageMode.UseNone, locked := false }

/-- Engine fz_count_pages; a NULL document counts 0 pages. -/
def fz_count_pages (doc : Option EngineDoc) : Nat :=
  match doc with
  | some ed => ed.numPages
  | none => 0

/-- Engine fz_needs_password; false on a NULL document. -/
def fz_needs_password (doc : Option EngineDoc) : Bool :=
  match doc with
  | some ed => ed.needsPassword
  | none => false

/-- Engine fz_authenticate_password; MuPDF returns success on a NULL
document (no authentication callback to fail). -/
def fz_authenticate_password (doc : Option EngineDoc) (password : String) : Bool :=
  match doc with
  | some ed => ed.passwords.contains password
  | none => true

/-- Engine fz_load_outline; MuPDF returns NULL for a NULL document. -/
def fz_load_outline (doc : Option EngineDoc) : FzOutline :=
  match doc with
  | some ed => ed.outline
  | none => FzOutline.nil

/-- Engine fz_lookup_metadata for FZ_META_FORMAT; none models the -1 return
(key unsupported or NULL document). -/
def fz_lookup_format (doc : Option EngineDoc) : Option String :=
  doc.bind (fun ed => ed.formatString)

/-- Engine pdf_trailer through Document::Data::pdf(): the trailer dictionary
of the current document, NULL when the document handle is NULL. -/
def pdf_trailer (st : DocState) : Option PdfObj :=
  st.mdoc.map (fun ed => ed.trailer)

/-- Document::Data::dict: pdf_dict_gets on the trailer. -/
def Document.Data.dict (st : DocState) (key : String) : Option PdfObj :=
  pdf_dict_gets (pdf_trailer st) key

/-- Document::Data::loadInfoDict: cache the trailer's Info entry if no
reference is cached yet. -/
def Document.Data.loadInfoDict (st : DocState) : DocState :=
  match st.info with
  | some _ => st
  | none => { st with info := Document.Data.dict st "Info" }

/-- The strcmp chain of Document::Data::load: map a PageMode name to the
enumeration value, leaving the current mode for an unrecognized name. -/
def parsePageMode (mode : String) (cur : PageMode) : PageMode :=
  if mode = "UseNone" then PageMode.UseNone
  else if mode = "UseOutlines" then PageMode.UseOutlines
  else if mode = "UseThumbs" then PageMode.UseThumbs
  else if mode = "FullScreen" then PageMode.FullScreen
  else if mode = "UseOC" then PageMode.UseOC
  else if mode = "UseAttachments" then PageMode.UseAttachments
  else cur

/-- Document::Data::load: fail if the trailer has no Root; otherwise set
pageCount from fz_count_pages and, when Root's PageMode entry is a name,
update pageMode through the strcmp chain. -/
def Document.Data.load (st : DocState) : Bool × DocState :=
  match Document.Data.dict st "Root" with
  | none => (false, st)
  | some root =>
    let st1 := { st with pageCount := fz_count_pages st.mdoc }
    let obj := pdf_dict_gets (some root) "PageMode"
    if pdf_is_name obj then
      (true, { st1 with pageMode := parsePageMode (pdf_to_name obj) st1.pageMode })
    else
      (true, st1)

/-- Document::Data::convertOutline: walk the sibling chain of an engine
outline; for each node append a child (capturing title and URI) to the
accumulated children of the current item, filling that child's own children
from its down chain before advancing to the next sibling. -/
def Document.Data.convertOutline : FzOutline → List Outline → List Outline
  | FzOutline.nil, acc => acc
  | FzOutline.node t u d n, acc =>
    Document.Data.convertOutline n
      (acc ++ [Outline.node t u (Document.Data.convertOutline d [])])

/-- Outcome of the engine open call inside fz_try: either fz_throw fires
(the fz_catch path runs) or a document handle (possibly NULL) is returned. -/
inductive EngineOpenResult where
  | throws
  | returns (doc : Option EngineDoc)

/-- Document::load. Arguments beyond the state: the LC_NUMERIC locale in
force when the call starts, whether fz_open_file produced a stream, and the
outcome of fz_open_document_with_stream. Returns the C++ return value, the
resulting state, and the LC_NUMERIC locale in force when the call returns.
Per C semantics, setlocale(LC_NUMERIC, "C") switches the locale to "C" and
returns the string of the NEW locale, so the saved oldlocale is "C" (the
call is modelled as always succeeding, i.e. non-NULL); the later
setlocale(LC_NUMERIC, oldlocale) therefore sets "C" again, and the fz_catch
path returns before even that call. -/
def Document.load (st : DocState) (locale : String) (streamOk : Bool)
    (engineOpen : EngineOpenResult) : Bool × DocState × String :=
  let st0 := { st with stream := streamOk }
  if !streamOk then
    (false, st0, locale)
  else
    let oldlocale := "C"
    match engineOpen with
    | EngineOpenResult.throws =>
      (false, { st0 with mdoc := none }, "C")
    | EngineOpenResult.returns docOpt =>
      let st1 := { st0 with mdoc := docOpt }
      let locale1 := oldlocale
      match docOpt with
      | none => (false, st1, locale1)
      | some _ =>
        let st2 := { st1 with locked := fz_needs_password st1.mdoc }
        if st2.locked then
          (true, st2, locale1)
        else
          match Document.Data.load st2 with
          | (false, st3) => (false, st3, locale1)
          | (true, st3) => (true, st3, locale1)

/-- Document::close: a no-op when the document handle is NULL; otherwise
drop the document then the stream and reset every field. -/
def Document.close (st : DocState) : DocState :=
  match st.mdoc with
  | none => st
  | some _ =>
    { mdoc := none, stream := false, pageCount := 0, info := none
      pageMode := PageMode.UseNone, locked := false }

/-- Document::isLocked. -/
def Document.isLocked (st : DocState) : Bool :=
  st.locked

/-- Document::pageCount. -/
def Document.pageCount (st : DocState) : Nat :=
  st.pageCount

/-- Document::pageMode. -/
def Document.pageMode (st : DocState) : PageMode :=
  st.pageMode

/-- Document::unlock: fail if not locked; fail if the engine rejects the
password; otherwise clear the locked flag and run the load step, whose
result is the return value. -/
def Document.unlock (st : DocState) (password : String) : Bool × DocState :=
  if !st.locked then
    (false, st)
  else if !fz_authenticate_password st.mdoc password then
    (false, st)
  else
    Document.Data.load { st with locked := false }

/-- Document::infoKeys: empty on a NULL document handle or absent Info
dictionary; otherwise the name text of each name-typed key of the Info
dictionary, in dictionary order. -/
def Document.infoKeys (st : DocState) : List String × DocState :=
  match st.mdoc with
  | none => ([], st)
  | some _ =>
    let st1 := Document.Data.loadInfoDict st
    match st1.info with
    | none => ([], st1)
    | some info =>
      let n := pdf_dict_len (some info)
      (((List.range n).filterMap (fun i =>
          let obj := pdf_dict_get_key (some info) i
          if pdf_is_name obj then some (pdf_to_name obj) else none)), st1)

/-- Result of Document::infoKey: the returned text, plus whether the
qWarning for a non-string info object was emitted. -/
structure InfoResult where
  text : String
  warned : Bool
deriving DecidableEq, Repr

/-- Document::infoKey: empty on a NULL handle or absent Info dictionary or
absent key; warn and return empty when the resolved entry is not a string;
otherwise the UTF-8 decoding of the string entry. -/
def Document.infoKey (st : DocState) (key : String) : InfoResult × DocState :=
  match st.mdoc with
  | none => ({ text := "", warned := false }, st)
  | some _ =>
    let st1 := Document.Data.loadInfoDict st
    match st1.info with
    | none => ({ text := "", warned := false }, st1)
    | some info =>
      match pdf_dict_gets (some info) key with
      | none => ({ text := "", warned := false }, st1)
      | some obj =>
        let robj := pdf_resolve_indirect (some obj)
        if !pdf_is_string robj then
          ({ text := "", warned := true }, st1)
        else
          match pdf_new_utf8_from_pdf_string_obj robj with
          | some v => ({ text := v, warned := false }, st1)
          | none => ({ text := "", warned := false }, st1)

/-- Document::outline: ask the engine for the outline; NULL gives absent,
otherwise a synthetic root with no title and no link filled by
convertOutline. -/
def Document.outline (st : DocState) : Option Outline :=
  match fz_load_outline st.mdoc with
  | FzOutline.nil => none
  | out => some (Outline.node none none (Document.Data.convertOutline out []))

/-- Whitespace test of the C locale, as sscanf uses it. -/
def isSpaceChar (c : Char) : Bool :=
  c = ' ' || c = '\t' || c = '\n' || c = '\r' || c = '\x0b' || c = '\x0c'

/-- Skip a run of whitespace characters. -/
def skipWs : List Char → List Char
  | [] => []
  | c :: rest => if isSpaceChar c then skipWs rest else c :: rest

/-- Longest leading run of decimal digits. -/
def takeDigits : List Char → List Char × List Char
  | [] => ([], [])
  | c :: rest =>
    if c.isDigit then
      let (ds, r) := takeDigits rest
      (c :: ds, r)
    else
      ([], c :: rest)

/-- Numeric value of a digit run. -/
def digitsToNat (ds : List Char) : Nat :=
  ds.foldl (fun a c => a * 10 + (c.toNat - Char.toNat '0')) 0

/-- One %d conversion of sscanf: skip whitespace, optional sign, at least
one digit; returns the value and the rest of the input. -/
def scanInt (cs : List Char) : Option (Int × List Char) :=
  let cs1 := skipWs cs
  match cs1 with
  | '+' :: rest =>
    let (ds, r) := takeDigits rest
    if ds.isEmpty then none else some ((digitsToNat ds : Int), r)
  | '-' :: rest =>
    let (ds, r) := takeDigits rest
    if ds.isEmpty then none else some (-(digitsToNat ds : Int), r)
  | _ =>
    let (ds, r) := takeDigits cs1
    if ds.isEmpty then none else some ((digitsToNat ds : Int), r)

/-- The sscanf(buf, "PDF %d.%d", major, minor) == 2 test of
Document::pdfVersion: literal P, D, F, a whitespace directive, a %d
conversion, a literal dot, a %d conversion. -/
def scanfPDFMajorMinor (s : String) : Option (Int × Int) :=
  match s.data with
  | 'P' :: 'D' :: 'F' :: rest =>
    match scanInt (skipWs rest) with
    | none => none
    | some (maj, rest2) =>
      match rest2 with
      | '.' :: rest3 =>
        match scanInt rest3 with
        | none => none
        | some (mi, _) => some (maj, mi)
      | _ => none
  | _ => none

/-- Document::pdfVersion: 0 on a NULL handle, on a failed metadata lookup
and on a format string that does not parse; otherwise major + minor / 10.
The C float arithmetic is idealised as exact rational arithmetic. -/
def Document.pdfVersion (st : DocState) : ℚ :=
  match st.mdoc with
  | none => 0
  | some _ =>
    match fz_lookup_format st.mdoc with
    | none => 0
    | some s =>
      match scanfPDFMajorMinor s with
      | some (maj, mi) => (maj : ℚ) + (mi : ℚ) / 10
      | none => 0

/-- Specification-side mirror of the outline conversion, following the
spec's wording: each sibling of the engine list, in order, becomes one
child capturing the optional title and optional link URI, whose own
children mirror that sibling's nested children, depth-first. -/
def outlineMirrorSpec : FzOutline → List Outline
  | FzOutline.nil => []
  | FzOutline.node t u d n =>
    Outline.node t u (outlineMirrorSpec d) :: outlineMirrorSpec n

/-- Specification-side name table for PageMode: the six recognized names,
anything else mapping to the default UseNone. -/
def parsePageModeSpec (s : String) : PageMode :=
  if s = "UseNone" then PageMode.UseNone
  else if s = "UseOutlines" then PageMode.UseOutlines
  else if s = "UseThumbs" then PageMode.UseThumbs
  else if s = "FullScreen" then PageMode.FullScreen
  else if s = "UseOC" then PageMode.UseOC
  else if s = "UseAttachments" then PageMode.UseAttachments
  else PageMode.UseNone

/-- Specification-side page mode of a Root dictionary: UseNone when the
PageMode entry is absent or does not resolve to a name, otherwise the
recognized name's value with unrecognized names falling back to UseNone. -/
def pageModeSpec (root : PdfObj) : PageMode :=
  match pdf_dict_gets (some root) "PageMode" with
  | none => PageMode.UseNone
  | some obj =>
    match obj.resolve with
    | PdfObj.name s => parsePageModeSpec s
    | _ => PageMode.UseNone

/-- Info dictionary reference that loadInfoDict establishes: the cached one
when present, otherwise the trailer's Info entry. -/
def infoDictOf (st : DocState) : Option PdfObj :=
  match st.info with
  | some i => some i
  | none => Document.Data.dict st "Info"

theorem loadInfoDict_info (st : DocState) :
    (Document.Data.loadInfoDict st).info = infoDictOf st := by
  unfold Document.Data.loadInfoDict infoDictOf
  cases h : st.info <;> simp [h]

theorem loadInfoDict_mdoc (st : DocState) :
    (Document.Data.loadInfoDict st).mdoc = st.mdoc := by
  unfold Document.Data.loadInfoDict
  cases h : st.info <;> simp [h]

theorem close_mdoc (st : DocState) : (Document.close st).mdoc = none := by
  unfold Document.close
  cases h : st.mdoc <;> simp [h]

theorem close_info (st : DocState) : (Document.close st).info = st.info ∨
    (Document.close st).info = none := by
  unfold Document.close
  cases h : st.mdoc <;> simp [h]

theorem convertOutline_eq_mirror (o : FzOutline) :
    ∀ acc, Document.Data.convertOutline o acc = acc ++ outlineMirrorSpec o := by
  induction o with
  | nil =>
    intro acc
    simp [Document.Data.convertOutline, outlineMirrorSpec]
  | node t u d n ihd ihn =>
    intro acc
    simp [Document.Data.convertOutline, outlineMirrorSpec, ihd, ihn]

/-- C1: the claim says the LC_NUMERIC locale observed after Document::load
equals the locale observed before it, on every exit path. In fact every
invocation that reaches the setlocale call exits with the locale left as
"C": setlocale(LC_NUMERIC, "C") returns the string of the new locale, so
the saved oldlocale is "C" and the second setlocale sets "C" again — shown
here on the engine-throw path (which skips even that second call), the
null-return path and a fully successful open; only a stream-open failure,
which precedes the setlocale call, leaves the prior locale in force. -/
theorem locale_not_restored_after_load :
    (Document.load DocState.init "de_DE.UTF-8" true EngineOpenResult.throws).2.2 = "C" ∧
    (Document.load DocState.init "de_DE.UTF-8" true
      (EngineOpenResult.returns none)).2.2 = "C" ∧
    (Document.load DocState.init "de_DE.UTF-8" true
      (EngineOpenResult.returns (some
        { trailer := PdfObj.dict [("Root", PdfObj.dict [])], numPages := 1
          needsPassword := false, passwords := [], formatString := none
          outline := FzOutline.nil }))).2.2 = "C" ∧
    (Document.load DocState.init "de_DE.UTF-8" false
      EngineOpenResult.throws).2.2 = "de_DE.UTF-8" := by
  refine ⟨rfl, rfl, rfl, rfl⟩

/-- C3: the claim says the stream handle is non-null iff the document handle
is non-null in every reachable state, including after an open that failed at
the engine's document-parse step. After exactly that failure the stream
handle is still non-null while the document handle is null: the fz_catch
path returns without dropping the stream. -/
theorem stream_leaked_on_parse_failure :
    ((Document.load DocState.init "C" true EngineOpenResult.throws).2.1.stream = true) ∧
    ((Document.load DocState.init "C" true EngineOpenResult.throws).2.1.mdoc = none) := by
  constructor <;> rfl

/-- C2: after close() on any document, and on a never-opened document,
infoKeys() returns an empty list, infoKey(key) returns empty text, and
outline() returns absent; every query checks or tolerates the null document
handle (the engine's fz_load_outline returns NULL for a NULL document). -/
theorem closed_document_queries_empty (st : DocState) (key : String) :
    (Document.infoKeys (Document.close st)).1 = [] ∧
    (Document.infoKey (Document.close st) key).1.text = "" ∧
    Document.outline (Document.close st) = none ∧
    (Document.infoKeys DocState.init).1 = [] ∧
    (Document.infoKey DocState.init key).1.text = "" ∧
    Document.outline DocState.init = none := by
  refine ⟨?_, ?_, ?_, rfl, rfl, rfl⟩
  · unfold Document.infoKeys
    rw [close_mdoc st]
  · unfold Document.infoKey
    rw [close_mdoc st]
  · unfold Document.outline fz_load_outline
    rw [close_mdoc st]

theorem Data_load_root_found_fst (st : DocState) (root : PdfObj)
    (h : Document.Data.dict st "Root" = some root) :
    (Document.Data.load st).1 = true := by
  unfold Document.Data.load
  rw [h]
  by_cases hn : pdf_is_name (pdf_dict_gets (some root) "PageMode") = true <;>
    simp [hn]

theorem Data_load_root_missing (st : DocState)
    (h : Document.Data.dict st "Root" = none) :
    Document.Data.load st = (false, st) := by
  unfold Document.Data.load
  rw [h]

theorem unlock_auth_ok (st : DocState) (q : String) (h1 : st.locked = true)
    (hauth : fz_authenticate_password st.mdoc q = true) :
    Document.unlock st q = Document.Data.load { st with locked := false } := by
  simp [Document.unlock, h1, hauth]

theorem unlock_auth_rejected (st : DocState) (q : String) (h1 : st.locked = true)
    (hauth : fz_authenticate_password st.mdoc q = false) :
    Document.unlock st q = (false, st) := by
  simp [Document.unlock, h1, hauth]

theorem dict_locked_irrelevant (st : DocState) (key : String) :
    Document.Data.dict { st with locked := false } key =
      Document.Data.dict st key := by
  simp [Document.Data.dict, pdf_trailer]

/-- C4 counterexample: the claim says one close() call on any document
leaves the stream handle null. Start from a fresh document, run an open
whose engine parse step throws (which leaves the stream handle non-null and
the document handle null), then close(): close() is a no-op on a null
document handle, so the stream handle is still non-null. -/
theorem close_leaves_leaked_stream :
    (Document.close
      (Document.load DocState.init "C" true EngineOpenResult.throws).2.1).stream = true := by
  rfl

/-- C4 amended: close() on a document whose handle is non-null resets the
whole observable state (handles null, pageCount 0, pageMode UseNone, cached
info absent, locked false); close() on a null handle is a no-op, leaving
the state — including a stream handle leaked by a failed engine open —
unchanged; and close() is idempotent: a second close() changes nothing. -/
theorem close_resets_and_idempotent (st : DocState) :
    (st.mdoc ≠ none → Document.close st = DocState.init) ∧
    (st.mdoc = none → Document.close st = st) ∧
    Document.close (Document.close st) = Document.close st := by
  refine ⟨?_, ?_, ?_⟩
  · intro hc
    cases h : st.mdoc with
    | none => exact absurd h hc
    | some ed => simp [Document.close, h, DocState.init]
  · intro hc
    simp [Document.close, hc]
  · cases h : st.mdoc with
    | none => simp [Document.close, h]
    | some ed => simp [Document.close, h]

/-- C4 amended witness: closing an open two-page document yields exactly the
constructor state. -/
theorem close_resets_and_idempotent_witness :
    Document.close
      { mdoc := some { trailer := PdfObj.dict [], numPages := 2, needsPassword := false
                       passwords := [], formatString := none, outline := FzOutline.nil }
        stream := true, pageCount := 2, info := none
        pageMode := PageMode.FullScreen, locked := false } = DocState.init :=
  (close_resets_and_idempotent
    { mdoc := some { trailer := PdfObj.dict [], numPages := 2, needsPassword := false
                     passwords := [], formatString := none, outline := FzOutline.nil }
      stream := true, pageCount := 2, info := none
      pageMode := PageMode.FullScreen, locked := false }).1 (by simp)

/-- Engine document of the C5 witness: locked, accepting exactly "pw", with
a Root entry in its trailer. -/
def lockedRootDoc : EngineDoc :=
  { trailer := PdfObj.dict [("Root", PdfObj.dict [])], numPages := 4
    needsPassword := true, passwords := ["pw"], formatString := none
    outline := FzOutline.nil }

/-- Document state of the C5 witness: just opened and still locked. -/
def lockedRootState : DocState :=
  { mdoc := some lockedRootDoc, stream := true, pageCount := 0, info := none
    pageMode := PageMode.UseNone, locked := true }

/-- C5: unlock on a document that is not locked fails with no state change;
unlock on a locked document with a password the engine rejects fails with no
state change; and after such a failure an unlock with an accepted password
(on a document whose trailer has a Root) succeeds — this layer imposes no
attempt limit. -/
theorem unlock_failure_no_state_change :
    (∀ st p, st.locked = false → Document.unlock st p = (false, st)) ∧
    (∀ st ed p, st.locked = true → st.mdoc = some ed →
      ed.passwords.contains p = false → Document.unlock st p = (false, st)) ∧
    (∀ st ed p q root, st.locked = true → st.mdoc = some ed →
      ed.passwords.contains p = false → ed.passwords.contains q = true →
      Document.Data.dict st "Root" = some root →
      (Document.unlock (Document.unlock st p).2 q).1 = true) := by
  have hfailed : ∀ st ed p, st.locked = true → st.mdoc = some ed →
      ed.passwords.contains p = false → Document.unlock st p = (false, st) := by
    intro st ed p h1 h2 h3
    refine unlock_auth_rejected st p h1 ?_
    rw [h2]
    exact h3
  refine ⟨?_, hfailed, ?_⟩
  · intro st p h
    simp [Document.unlock, h]
  · intro st ed p q root h1 h2 h3 h4 h5
    rw [hfailed st ed p h1 h2 h3]
    have hauth : fz_authenticate_password st.mdoc q = true := by
      rw [h2]
      exact h4
    rw [unlock_auth_ok st q h1 hauth]
    refine Data_load_root_found_fst _ root ?_
    rw [dict_locked_irrelevant st "Root"]
    exact h5

/-- C5 witness: a fresh document rejects unlock; the locked witness document
rejects "bad" with its state unchanged and then accepts "pw". -/
theorem unlock_failure_no_state_change_witness :
    Document.unlock DocState.init "x" = (false, DocState.init) ∧
    Document.unlock lockedRootState "bad" = (false, lockedRootState) ∧
    (Document.unlock (Document.unlock lockedRootState "bad").2 "pw").1 = true :=
  ⟨unlock_failure_no_state_change.1 DocState.init "x" rfl,
   unlock_failure_no_state_change.2.1 lockedRootState lockedRootDoc "bad" rfl rfl rfl,
   unlock_failure_no_state_change.2.2 lockedRootState lockedRootDoc "bad" "pw"
     (PdfObj.dict []) rfl rfl rfl rfl rfl⟩

/-- C10: unlock on a locked document whose password the engine accepts but
whose trailer lacks a Root returns false while the locked flag has already
been cleared: afterwards isLocked() is false and pageCount() is 0, so the
document reports neither Locked nor a usable Open state. -/
theorem unlock_accept_then_load_failure (st : DocState) (ed : EngineDoc) (p : String)
    (h1 : st.locked = true) (h2 : st.mdoc = some ed)
    (h3 : ed.passwords.contains p = true)
    (h4 : Document.Data.dict st "Root" = none)
    (h5 : st.pageCount = 0) :
    Document.unlock st p = (false, { st with locked := false }) ∧
    Document.isLocked (Document.unlock st p).2 = false ∧
    Document.pageCount (Document.unlock st p).2 = 0 := by
  have hauth : fz_authenticate_password st.mdoc p = true := by
    rw [h2]
    exact h3
  have hu : Document.unlock st p = (false, { st with locked := false }) := by
    rw [unlock_auth_ok st p h1 hauth]
    refine Data_load_root_missing _ ?_
    rw [dict_locked_irrelevant st "Root"]
    exact h4
  refine ⟨hu, by rw [hu]; rfl, ?_⟩
  rw [hu]
  simpa [Document.pageCount] using h5

/-- Engine document of the C10 witness: locked, accepting "pw", with no
Root entry in its trailer. -/
def lockedNoRootDoc : EngineDoc :=
  { trailer := PdfObj.dict [("Info", PdfObj.dict [])], numPages := 9
    needsPassword := true, passwords := ["pw"], formatString := none
    outline := FzOutline.nil }

/-- Document state of the C10 witness: just opened and still locked. -/
def lockedNoRootState : DocState :=
  { mdoc := some lockedNoRootDoc, stream := true, pageCount := 0, info := none
    pageMode := PageMode.UseNone, locked := true }

/-- C10 witness: the locked Root-less witness document accepting "pw" ends
unlocked with zero pages and a false return. -/
theorem unlock_accept_then_load_failure_witness :
    Document.unlock lockedNoRootState "pw" =
      (false, { lockedNoRootState with locked := false }) :=
  (unlock_accept_then_load_failure lockedNoRootState lockedNoRootDoc "pw"
    rfl rfl rfl rfl rfl).1

/-- C6: outline() returns absent when the engine reports no outline;
otherwise it returns a synthetic root node with no title and no link whose
children are the specification-side depth-first mirror of the engine's
linked outline structure, preserving document order. -/
theorem outline_mirrors_engine (st : DocState) (ed : EngineDoc)
    (h : st.mdoc = some ed) :
    (ed.outline = FzOutline.nil → Document.outline st = none) ∧
    (ed.outline ≠ FzOutline.nil →
      Document.outline st =
        some (Outline.node none none (outlineMirrorSpec ed.outline))) := by
  constructor
  · intro h0
    unfold Document.outline fz_load_outline
    rw [h]
    simp [h0]
  · intro h0
    cases ho : ed.outline with
    | nil => exact absurd ho h0
    | node t u d n =>
      unfold Document.outline fz_load_outline
      rw [h]
      simp [ho, convertOutline_eq_mirror]

/-- Engine outline of the C6 witness: a chapter with one nested section. -/
def chapterOutline : FzOutline :=
  FzOutline.node (some "Chapter 1") none
    (FzOutline.node (some "Section 1.1") (some "#page=2") FzOutline.nil FzOutline.nil)
    FzOutline.nil

/-- Engine document of the C6 witness. -/
def outlinedDoc : EngineDoc :=
  { trailer := PdfObj.dict [("Root", PdfObj.dict [])], numPages := 2
    needsPassword := false, passwords := [], formatString := none
    outline := chapterOutline }

/-- Document state of the C6 witness: the outlined document, open. -/
def outlinedState : DocState :=
  { mdoc := some outlinedDoc, stream := true, pageCount := 2, info := none
    pageMode := PageMode.UseNone, locked := false }

/-- C6 witness: the two-level bookmark tree mirrors into a synthetic root
whose single child is "Chapter 1" with single child "Section 1.1". -/
theorem outline_mirrors_engine_witness :
    Document.outline outlinedState =
      some (Outline.node none none
        [Outline.node (some "Chapter 1") none
          [Outline.node (some "Section 1.1") (some "#page=2") []]]) := by
  rw [(outline_mirrors_engine outlinedState outlinedDoc rfl).2 (by decide)]
  rfl

/-- Unfolding of Document::infoKey once the document handle is known. -/
theorem infoKey_open (st : DocState) (ed : EngineDoc) (key : String)
    (h : st.mdoc = some ed) :
    Document.infoKey st key =
      (let st1 := Document.Data.loadInfoDict st
       match st1.info with
       | none => ({ text := "", warned := false }, st1)
       | some info =>
         match pdf_dict_gets (some info) key with
         | none => ({ text := "", warned := false }, st1)
         | some obj =>
           let robj := pdf_resolve_indirect (some obj)
           if !pdf_is_string robj then
             ({ text := "", warned := true }, st1)
           else
             match pdf_new_utf8_from_pdf_string_obj robj with
             | some v => ({ text := v, warned := false }, st1)
             | none => ({ text := "", warned := false }, st1)) := by
  unfold Document.infoKey
  rw [h]

/-- C7: infoKey(key) on an open document degrades gracefully — an entry that
resolves to a non-string yields a logged warning and empty text; an absent
key, or an absent Info dictionary, yields empty text without a warning; a
string-typed entry yields its UTF-8 decoding. -/
theorem infoKey_type_mismatch_degrades :
    (∀ st ed info key obj, st.mdoc = some ed → infoDictOf st = some info →
      pdf_dict_gets (some info) key = some obj →
      pdf_is_string (pdf_resolve_indirect (some obj)) = false →
      (Document.infoKey st key).1 = { text := "", warned := true }) ∧
    (∀ st ed info key, st.mdoc = some ed → infoDictOf st = some info →
      pdf_dict_gets (some info) key = none →
      (Document.infoKey st key).1 = { text := "", warned := false }) ∧
    (∀ st ed key, st.mdoc = some ed → infoDictOf st = none →
      (Document.infoKey st key).1 = { text := "", warned := false }) ∧
    (∀ st ed info key obj s, st.mdoc = some ed → infoDictOf st = some info →
      pdf_dict_gets (some info) key = some obj →
      PdfObj.resolve obj = PdfObj.string s →
      (Document.infoKey st key).1 = { text := s, warned := false }) := by
  refine ⟨?_, ?_, ?_, ?_⟩
  · intro st ed info key obj h1 h2 h3 h4
    rw [infoKey_open st ed key h1]
    simp only [loadInfoDict_info, h2, h3, h4]
    simp
  · intro st ed info key h1 h2 h3
    rw [infoKey_open st ed key h1]
    simp only [loadInfoDict_info, h2, h3]
  · intro st ed key h1 h2
    rw [infoKey_open st ed key h1]
    simp only [loadInfoDict_info, h2]
  · intro st ed info key obj s h1 h2 h3 h4
    rw [infoKey_open st ed key h1]
    simp only [loadInfoDict_info, h2, h3]
    simp [pdf_resolve_indirect, pdf_is_string, pdf_new_utf8_from_pdf_string_obj,
      PdfObj.resolve, h4]

/-- Info dictionary of the C7 witness: a string-typed Title behind an
indirect reference and a non-string Pages entry. -/
def sampleInfoDict : PdfObj :=
  PdfObj.dict [("Title", PdfObj.indirect (PdfObj.string "My Doc")),
               ("Pages", PdfObj.other)]

/-- Engine document of the C7 witness. -/
def sampleInfoDoc : EngineDoc :=
  { trailer := PdfObj.dict [("Root", PdfObj.dict []), ("Info", sampleInfoDict)]
    numPages := 1, needsPassword := false, passwords := [], formatString := none
    outline := FzOutline.nil }

/-- Document state of the C7 witness: the document is open, nothing cached. -/
def sampleInfoState : DocState :=
  { mdoc := some sampleInfoDoc, stream := true, pageCount := 1, info := none
    pageMode := PageMode.UseNone, locked := false }

/-- C7 witness: the non-string Pages entry warns and returns empty, a
missing key returns empty silently, and the Title entry decodes. -/
theorem infoKey_type_mismatch_degrades_witness :
    (Document.infoKey sampleInfoState "Pages").1 = { text := "", warned := true } ∧
    (Document.infoKey sampleInfoState "Missing").1 = { text := "", warned := false } ∧
    (Document.infoKey sampleInfoState "Title").1 = { text := "My Doc", warned := false } :=
  ⟨infoKey_type_mismatch_degrades.1 sampleInfoState sampleInfoDoc sampleInfoDict
     "Pages" PdfObj.other rfl rfl rfl rfl,
   infoKey_type_mismatch_degrades.2.1 sampleInfoState sampleInfoDoc sampleInfoDict
     "Missing" rfl rfl rfl,
   infoKey_type_mismatch_degrades.2.2.2 sampleInfoState sampleInfoDoc sampleInfoDict
     "Title" (PdfObj.indirect (PdfObj.string "My Doc")) "My Doc" rfl rfl rfl rfl⟩

/-- C8: pdfVersion() is 0 on an unopened document; on an open document it is
0 when the format metadata is unavailable or does not match "PDF %d.%d",
and major + minor / 10 when it does; the format string "PDF 1.7" gives 1.7. -/
theorem pdfVersion_parses_format :
    (∀ st, st.mdoc = none → Document.pdfVersion st = 0) ∧
    (∀ st ed, st.mdoc = some ed → ed.formatString = some "PDF 1.7" →
      Document.pdfVersion st = 17 / 10) ∧
    (∀ st ed s, st.mdoc = some ed → ed.formatString = some s →
      scanfPDFMajorMinor s = none → Document.pdfVersion st = 0) ∧
    (∀ st ed s maj mi, st.mdoc = some ed → ed.formatString = some s →
      scanfPDFMajorMinor s = some (maj, mi) →
      Document.pdfVersion st = (maj : ℚ) + (mi : ℚ) / 10) ∧
    (∀ st ed, st.mdoc = some ed → ed.formatString = none →
      Document.pdfVersion st = 0) := by
  have step : ∀ st ed, st.mdoc = some ed →
      Document.pdfVersion st =
        (match ed.formatString with
         | none => 0
         | some s =>
           match scanfPDFMajorMinor s with
           | some (maj, mi) => (maj : ℚ) + (mi : ℚ) / 10
           | none => 0) := by
    intro st ed h
    unfold Document.pdfVersion fz_lookup_format
    rw [h]
    rfl
  refine ⟨?_, ?_, ?_, ?_, ?_⟩
  · intro st h
    unfold Document.pdfVersion
    rw [h]
  · intro st ed h1 h2
    have hs : scanfPDFMajorMinor "PDF 1.7" = some (1, 7) := by rfl
    rw [step st ed h1, h2]
    norm_num [hs]
  · intro st ed s h1 h2 h3
    rw [step st ed h1, h2]
    simp [h3]
  · intro st ed s maj mi h1 h2 h3
    rw [step st ed h1, h2]
    simp [h3]
  · intro st ed h1 h2
    rw [step st ed h1, h2]

/-- Engine document of the C8 witness, reporting format "PDF 1.7". -/
def versionedDoc : EngineDoc :=
  { trailer := PdfObj.dict [("Root", PdfObj.dict [])], numPages := 1
    needsPassword := false, passwords := [], formatString := some "PDF 1.7"
    outline := FzOutline.nil }

/-- Document state of the C8 witness: the versioned document, open. -/
def versionedState : DocState :=
  { mdoc := some versionedDoc, stream := true, pageCount := 1, info := none
    pageMode := PageMode.UseNone, locked := false }

/-- C8 witness: the unopened document reports 0 and the open "PDF 1.7"
document reports 1.7. -/
theorem pdfVersion_parses_format_witness :
    Document.pdfVersion DocState.init = 0 ∧
    Document.pdfVersion versionedState = 17 / 10 :=
  ⟨pdfVersion_parses_format.1 DocState.init rfl,
   pdfVersion_parses_format.2.1 versionedState versionedDoc rfl rfl⟩

theorem parsePageMode_default_eq_spec (s : String) :
    parsePageMode s PageMode.UseNone = parsePageModeSpec s := rfl

theorem pdf_is_name_elim (obj : Option PdfObj) (hn : pdf_is_name obj = true) :
    ∃ o s, obj = some o ∧ o.resolve = PdfObj.name s := by
  cases obj with
  | none => simp [pdf_is_name] at hn
  | some o =>
    cases hro : o.resolve with
    | name s => exact ⟨o, s, rfl, hro⟩
    | string s => simp [pdf_is_name, hro] at hn
    | dict es => simp [pdf_is_name, hro] at hn
    | indirect t => simp [pdf_is_name, hro] at hn
    | other => simp [pdf_is_name, hro] at hn

theorem pageModeSpec_of_not_name (root : PdfObj)
    (hn : pdf_is_name (pdf_dict_gets (some root) "PageMode") = false) :
    pageModeSpec root = PageMode.UseNone := by
  unfold pageModeSpec
  cases hobj : pdf_dict_gets (some root) "PageMode" with
  | none => rfl
  | some o =>
    rw [hobj] at hn
    cases hro : o.resolve with
    | name s => simp [pdf_is_name, hro] at hn
    | string s => simp [hro]
    | dict es => simp [hro]
    | indirect t => simp [hro]
    | other => simp [hro]

theorem pageModeSpec_of_name (root : PdfObj) (o : PdfObj) (s : String)
    (hobj : pdf_dict_gets (some root) "PageMode" = some o)
    (hro : o.resolve = PdfObj.name s) :
    pageModeSpec root = parsePageModeSpec s := by
  unfold pageModeSpec
  rw [hobj]
  simp [hro]

/-- C9: pageMode defaults to UseNone, and the load step sets it from the
trailer Root dictionary's PageMode entry: an absent entry, an entry that is
not a name, or an unrecognized name leave the default UseNone; a recognized
name yields the matching enumeration value (the specification-side
pageModeSpec). -/
theorem pageMode_from_trailer (st : DocState) (root : PdfObj)
    (hmode : st.pageMode = PageMode.UseNone)
    (hroot : Document.Data.dict st "Root" = some root) :
    (Document.Data.load st).2.pageMode = pageModeSpec root ∧
    DocState.init.pageMode = PageMode.UseNone := by
  refine ⟨?_, rfl⟩
  unfold Document.Data.load
  rw [hroot]
  by_cases hn : pdf_is_name (pdf_dict_gets (some root) "PageMode") = true
  · obtain ⟨o, s, hobj, hro⟩ := pdf_is_name_elim _ hn
    rw [pageModeSpec_of_name root o s hobj hro]
    have ht : pdf_to_name (pdf_dict_gets (some root) "PageMode") = s := by
      rw [hobj]
      simp [pdf_to_name, hro]
    simp [hn, ht, hmode, parsePageMode_default_eq_spec]
  · have hn0 : pdf_is_name (pdf_dict_gets (some root) "PageMode") = false := by
      simpa using hn
    rw [pageModeSpec_of_not_name root hn0]
    simp [hn0, hmode]

/-- Root dictionary of the C9 witness, selecting FullScreen. -/
def fullScreenRoot : PdfObj :=
  PdfObj.dict [("PageMode", PdfObj.name "FullScreen")]

/-- Engine document of the C9 witness: the trailer's Root entry is an
indirect reference to the catalog dictionary. -/
def fullScreenDoc : EngineDoc :=
  { trailer := PdfObj.dict [("Root", PdfObj.indirect fullScreenRoot)]
    numPages := 6, needsPassword := false, passwords := [], formatString := none
    outline := FzOutline.nil }

/-- Document state of the C9 witness just before the load step. -/
def fullScreenState : DocState :=
  { mdoc := some fullScreenDoc, stream := true, pageCount := 0, info := none
    pageMode := PageMode.UseNone, locked := false }

/-- C9 witness: the load step reads FullScreen through the indirect Root. -/
theorem pageMode_from_trailer_witness :
    (Document.Data.load fullScreenState).2.pageMode =
      pageModeSpec (PdfObj.indirect fullScreenRoot) ∧
    pageModeSpec (PdfObj.indirect fullScreenRoot) = PageMode.FullScreen :=
  ⟨(pageMode_from_trailer fullScreenState (PdfObj.indirect fullScreenRoot) rfl rfl).1,
   by decide⟩

end QMuPDF
